import Mathlib

/-!
Verification development for the `jg` repository: a from-scratch JSON
tokenizer and recursive-descent document builder written in Go.

The repository's `lexer` package contains two revisions of the scanner:

* an older scheme (`Next` returning only a byte count, aborting the process
  via `log.Fatal` on every lexical error, a `tokenMap` keyed by strings,
  and an `index` cursor into the token log) — embedded below in namespace
  `lexer0`;
* a newer, stricter scheme (`Next` returning `(int, error)`, per-line
  character-column tracking, and helper scanners `readReserved`,
  `readString`, `readNumber`) — embedded below in namespace `lexer`.

The `parser` package (`Parser.Parse`, `CreateObject`, the `Document` /
`element` tree) drives a lexer whose `Next` returns a single integer, i.e.
the older scheme; it is embedded in namespace `parser` over `lexer0`.

Go byte slices are modelled as `List Nat` (each entry a byte value),
Go strings as their UTF-8 byte lists, Go `int` counters as `Nat` (none of
the embedded code paths drive them negative), and both `log.Fatal` process
aborts and runtime panics (out-of-range slice or index expressions) as
`Except.error` outcomes carrying an error kind plus the line/position
values the corresponding Go message would format.  Every loop is embedded
with an explicit fuel argument (structural recursion, so closed instances
reduce by `rfl`); fuel exhaustion is a distinguished error kind that is
never hit at the fuel values the callers pass for the inputs considered.
-/

/-- Kinds for the error taxonomy of spec §7.  Each constructor tags the
concrete `log.Fatal` / `fmt.Errorf` / panic sites of the source:
`invalidUTF8` the "Invalid UTF-8 character" sites, `unexpectedEOF` the
"unexpected EOF" sites, `unexpectedToken` the old lexer's "Unexpected
token" fatals, `unexpectedRune` the new `Next`'s "unexpected rune" error,
`unexpectedIdentifier` the new `readReserved`'s "unexpected identifier"
error, `malformedNumber` the new `readNumber`'s "Unexpected lexer" fatals
(spec §7 classifies a second decimal point or a non-digit inside a number
scan as `MalformedNumber`), `grammarViolation` the parser's expected-colon
and root-must-be-object-or-array fatals, `duplicateKey` the
`object.AddElement` "already exists" fatal, `sliceOutOfRange` /
`indexOutOfRange` Go runtime panics from slicing or indexing past a
length, and `fuelExhausted` the (unreached) fuel bound of the embedding. -/
inductive ErrKind where
  | invalidUTF8
  | unexpectedEOF
  | unexpectedToken
  | unexpectedRune
  | unexpectedIdentifier
  | malformedNumber
  | grammarViolation
  | duplicateKey
  | sliceOutOfRange
  | indexOutOfRange
  | fuelExhausted
deriving DecidableEq

/-- A positional error: the kind plus the two numbers the Go error message
formats (the current line, and whichever of the byte position / column the
source site passes). -/
structure Err where
  kind : ErrKind
  line : Nat
  pos : Nat
deriving DecidableEq

/-- Token kinds, from the `iota` enumeration in the lexer package's token
file (EOF = 0, NEWLINE = 1, ...).  The numbering matters: Go map lookups
of absent keys return the zero value, which is `EOF`. -/
inductive TokenType where
  | EOF
  | NEWLINE
  | WHITESPACE
  | QUOTE
  | LBRACE
  | RBRACE
  | LBRACKET
  | RBRACKET
  | COMMA
  | COLON
  | NUMBER
  | STRING
  | TRUE
  | FALSE
  | NULL
deriving DecidableEq

/-- The repository's `Token` struct, from the lexer package's token file:
kind, literal text, 1-based line, the UTF-8 character column `Col`, and
the starting byte position `Pos`.  The older lexer revision's composite
literals populate `{Type, Literal, Line, Pos}` (leaving `col` at Go's
zero value) and the newer revision's populate `{Type, Literal, Line,
Col}` (leaving `pos` at zero).  `typ` renders the Go field name `Type`,
which Lean reserves. -/
structure Token where
  typ : TokenType
  literal : List Nat
  line : Nat
  col : Nat
  pos : Nat
deriving DecidableEq

/-- `TokenType.String()` from the lexer package's token file: it indexes a
literal array of the kinds' names with the kind's value, yielding `"EOF"`,
`"NEWLINE"`, ..., `"NULL"` (here as UTF-8 byte lists).  The Go index
expression can only panic for a `TokenType` outside `0..14`, which the
closed inductive rules out. -/
def TokenType.string : TokenType → List Nat
  | .EOF => [69, 79, 70]
  | .NEWLINE => [78, 69, 87, 76, 73, 78, 69]
  | .WHITESPACE => [87, 72, 73, 84, 69, 83, 80, 65, 67, 69]
  | .QUOTE => [81, 85, 79, 84, 69]
  | .LBRACE => [76, 66, 82, 65, 67, 69]
  | .RBRACE => [82, 66, 82, 65, 67, 69]
  | .LBRACKET => [76, 66, 82, 65, 67, 75, 69, 84]
  | .RBRACKET => [82, 66, 82, 65, 67, 75, 69, 84]
  | .COMMA => [67, 79, 77, 77, 65]
  | .COLON => [67, 79, 76, 79, 78]
  | .NUMBER => [78, 85, 77, 66, 69, 82]
  | .STRING => [83, 84, 82, 73, 78, 71]
  | .TRUE => [84, 82, 85, 69]
  | .FALSE => [70, 65, 76, 83, 69]
  | .NULL => [78, 85, 76, 76]

/-- `unicode.utf8.RuneError`, the replacement character U+FFFD. -/
def runeError : Nat := 65533

/-- Go's `utf8.DecodeRune` on a byte list: returns the first rune and its
byte width.  Empty input gives `(RuneError, 0)`; an invalid or incomplete
encoding gives `(RuneError, 1)`; ASCII and well-formed 2/3/4-byte
sequences decode as usual (with the surrogate and overlong ranges the Go
implementation rejects). -/
def decodeRune (bs : List Nat) : Nat × Nat :=
  match bs with
  | [] => (runeError, 0)
  | b0 :: rest =>
    if b0 < 128 then (b0, 1)
    else if 194 ≤ b0 ∧ b0 ≤ 223 then
      match rest with
      | b1 :: _ =>
        if 128 ≤ b1 ∧ b1 ≤ 191 then ((b0 - 192) * 64 + (b1 - 128), 2)
        else (runeError, 1)
      | [] => (runeError, 1)
    else if 224 ≤ b0 ∧ b0 ≤ 239 then
      match rest with
      | b1 :: b2 :: _ =>
        if ((if b0 = 224 then 160 ≤ b1 else if b0 = 237 then b1 ≤ 159 ∧ 128 ≤ b1 else 128 ≤ b1) ∧ b1 ≤ 191)
            ∧ (128 ≤ b2 ∧ b2 ≤ 191) then
          ((b0 - 224) * 4096 + (b1 - 128) * 64 + (b2 - 128), 3)
        else (runeError, 1)
      | _ => (runeError, 1)
    else if 240 ≤ b0 ∧ b0 ≤ 244 then
      match rest with
      | b1 :: b2 :: b3 :: _ =>
        if ((if b0 = 240 then 144 ≤ b1 else if b0 = 244 then b1 ≤ 143 ∧ 128 ≤ b1 else 128 ≤ b1) ∧ b1 ≤ 191)
            ∧ (128 ≤ b2 ∧ b2 ≤ 191) ∧ (128 ≤ b3 ∧ b3 ≤ 191) then
          ((b0 - 240) * 262144 + (b1 - 128) * 4096 + (b2 - 128) * 64 + (b3 - 128), 4)
        else (runeError, 1)
      | _ => (runeError, 1)
    else (runeError, 1)

/-- Go `string(r)`: the UTF-8 encoding of a rune as bytes.  Every rune the
embedded code paths convert is a single ASCII byte, but the general
encoding is given for fidelity. -/
def runeBytes (r : Nat) : List Nat :=
  if r < 128 then [r]
  else if r < 2048 then [192 + r / 64, 128 + r % 64]
  else if r < 65536 then [224 + r / 4096, 128 + (r / 64) % 64, 128 + r % 64]
  else [240 + r / 262144, 128 + (r / 4096) % 64, 128 + (r / 64) % 64, 128 + r % 64]

/-- `unicode.IsDigit` restricted to the code points the embedded inputs
contain: for ASCII runes Go's `IsDigit` holds exactly on `'0'..'9'`.
(Go additionally accepts other Unicode decimal-digit runes; no claim's
input or statement involves one.) -/
def unicodeIsDigit (r : Nat) : Bool :=
  decide (48 ≤ r ∧ r ≤ 57)

/-- Bytes of the keyword `"true"`. -/
def trueBytes : List Nat := [116, 114, 117, 101]

/-- Bytes of the keyword `"false"`. -/
def falseBytes : List Nat := [102, 97, 108, 115, 101]

/-- Bytes of the keyword `"null"`. -/
def nullBytes : List Nat := [110, 117, 108, 108]

namespace lexer

/-- The newer lexer revision's state: the immutable input buffer, the
append-only token log, the 1-based current line, the per-line character
column `col`, and the byte position `pos`. -/
structure Lexer where
  input : List Nat
  tokens : List Token
  line : Nat
  col : Nat
  pos : Nat

/-- Alias for the shared `Token` structure, usable inside the `Lexer`
method namespace where the method name `Lexer.Token` would otherwise
shadow it. -/
abbrev Tok : Type := Token

/-- `NewLexer`: input installed, `line` starts at 1, every other field at
Go's zero value. -/
def NewLexer (input : List Nat) : Lexer :=
  { input := input, tokens := [], line := 1, col := 0, pos := 0 }

/-- `Reset`: rewind to the beginning of the input and clear the tokens. -/
def Reset (l : Lexer) : Lexer :=
  { l with tokens := [], pos := 0, col := 0, line := 1 }

/-- `Token()`: the source indexes `l.tokens[len(l.tokens)-1]`, a runtime
panic when the log is empty; the total embedding returns `none` exactly in
that case. -/
def Lexer.Token (l : Lexer) : Option Tok := l.tokens.getLast?

/-- `Tokens()`: a copy of the token log. -/
def Lexer.Tokens (l : Lexer) : List Tok := l.tokens

/-- `Len()`: the number of tokens read so far. -/
def Lexer.Len (l : Lexer) : Nat := l.tokens.length

/-- `appendToken`: appends a token recording the current line and — as the
source writes `Col: l.pos` — the current *byte position* in the `col`
field.  The maintained character column `l.col` is never stored, and the
`pos` field is left at Go's zero value. -/
def appendToken (l : Lexer) (t : TokenType) (literal : List Nat) : Lexer :=
  { l with tokens := l.tokens ++ [{ typ := t, literal := literal, line := l.line, col := l.pos, pos := 0 }] }

/-- The `structures` map from the lexer package's token file: exactly the
six runes of the JSON structure elements `{ } [ ] , :`, each mapped to its
token kind (newline, horizontal whitespace, reserved words, strings and
numbers are handled by `Next`'s switch instead). -/
def structuresFind (r : Nat) : Option TokenType :=
  if r = 123 then some .LBRACE
  else if r = 125 then some .RBRACE
  else if r = 91 then some .LBRACKET
  else if r = 93 then some .RBRACKET
  else if r = 44 then some .COMMA
  else if r = 58 then some .COLON
  else none

/-- A `structures[r]` lookup without the `ok` flag: Go yields the zero
value `EOF` for an absent key. -/
def structuresGet (r : Nat) : TokenType :=
  (structuresFind r).getD .EOF

/-- `readReserved`: match the bytes at the cursor against `false`, then
`true`/`null`.  The source's condition
`len(slice) >= 5 && slice[:5] == "false"` guards its slice, while Go's
operator precedence parses the second condition as
`(len(slice) >= 4 && slice[:4] == "true") || slice[:4] == "null"`, so the
`"null"` comparison slices `slice[:4]` unguarded (a runtime panic when
fewer than 4 bytes remain), and on either match the token appended is
`TRUE` with literal `slice[:4]`.  Returns the *additional* byte count the
caller adds to the first rune's size (4 for `false`, 3 for `true`/`null`). -/
def readReserved (l : Lexer) : Lexer × Except Err Nat :=
  let slice := l.input.drop l.pos
  if 5 ≤ slice.length ∧ slice.take 5 = falseBytes then
    let l1 := appendToken l .FALSE falseBytes
    ({ l1 with col := l1.col + 4 }, .ok 4)
  else if 4 ≤ slice.length ∧ slice.take 4 = trueBytes then
    let l1 := appendToken l .TRUE (slice.take 4)
    ({ l1 with col := l1.col + 3 }, .ok 3)
  else if slice.length < 4 then
    (l, .error { kind := .sliceOutOfRange, line := l.line, pos := l.col })
  else if slice.take 4 = nullBytes then
    let l1 := appendToken l .TRUE (slice.take 4)
    ({ l1 with col := l1.col + 3 }, .ok 3)
  else
    (l, .error { kind := .unexpectedIdentifier, line := l.line, pos := l.col })

/-- The newer `readString` loop.  Faithful to the source, each iteration
decodes the rune at `l.input[l.pos:]` — the *fixed* cursor position, which
still holds the opening quote — and treats any rune whose (zero-defaulted)
`structures` lookup is `EOF` as an unexpected end of input, so the scan
never advances past the first rune.  The closing-quote branch (reachable
only if the rune at the cursor were structural, which `Next` never allows)
is embedded as written, including the transient `l.col--` / `l.col++`
around the String append and the `l.input[l.pos : l.pos+size]` slices. -/
def readStringGo (l : Lexer) (size : Nat) : Nat → Lexer × Except Err Nat
  | 0 => (l, .error { kind := .fuelExhausted, line := l.line, pos := l.col })
  | fuel + 1 =>
    let r := (decodeRune (l.input.drop l.pos)).1
    let s := (decodeRune (l.input.drop l.pos)).2
    if r = runeError then
      (l, .error { kind := .invalidUTF8, line := l.line, pos := l.col })
    else if structuresGet r = .EOF then
      (l, .error { kind := .unexpectedEOF, line := l.line, pos := l.col })
    else if r = 34 then
      let l1 :=
        if size ≠ 0 then
          let la := { l with col := l.col - 1 }
          let lb := appendToken la .STRING ((l.input.drop l.pos).take size)
          { lb with col := lb.col + 1 }
        else l
      let l2 := appendToken l1 .QUOTE [34]
      ({ l2 with col := l2.col + 1 }, .ok (size + s))
    else
      readStringGo { l with col := l.col + 1 } (size + s) fuel

/-- `readString` entry point: scan size starts at 0. -/
def readString (l : Lexer) (fuel : Nat) : Lexer × Except Err Nat :=
  readStringGo l 0 fuel

/-- The newer `readNumber` loop: starting from the byte size of the first
rune, scan forward while the rune's zero-defaulted `structures` lookup is
not WHITESPACE / NEWLINE / COMMA (for the six-key map only COMMA can ever
match), tracking `hasDecimal`; a second `.` or any other non-digit is a
`log.Fatal` formatting `l.line` and `l.pos` (the *start* of the number).
Running past the buffer end is an unexpected-EOF error.  No token is ever
appended; the accumulated size (which already contains the first rune's
size the caller passed in) is returned, and `Next` adds it to its own
count a second time. -/
def readNumberGo (l : Lexer) (hasDecimal : Bool) (size : Nat) : Nat → Lexer × Except Err Nat
  | 0 => (l, .error { kind := .fuelExhausted, line := l.line, pos := l.col })
  | fuel + 1 =>
    if l.input.length ≤ l.pos + size then
      (l, .error { kind := .unexpectedEOF, line := l.line, pos := l.col })
    else
      let r := (decodeRune (l.input.drop (l.pos + size))).1
      let s := (decodeRune (l.input.drop (l.pos + size))).2
      if r = runeError then
        (l, .error { kind := .invalidUTF8, line := l.line, pos := l.col })
      else if structuresGet r = .WHITESPACE ∨ structuresGet r = .NEWLINE ∨ structuresGet r = .COMMA then
        (l, .ok size)
      else if r = 46 ∧ hasDecimal = true then
        (l, .error { kind := .malformedNumber, line := l.line, pos := l.pos })
      else if r ≠ 46 ∧ unicodeIsDigit r = false then
        (l, .error { kind := .malformedNumber, line := l.line, pos := l.pos })
      else
        readNumberGo { l with col := l.col + 1 } (hasDecimal || decide (r = 46)) (size + s) fuel

/-- `readNumber` entry point: `hasDecimal` starts false; the first rune's
byte size is passed in as the initial scan size. -/
def readNumber (l : Lexer) (size fuel : Nat) : Lexer × Except Err Nat :=
  readNumberGo l false size fuel

/-- Success path of a branch that falls through to `l.pos += size`. -/
def advanceOk (l : Lexer) (size : Nat) : Lexer × Except Err Nat :=
  ({ l with pos := l.pos + size }, .ok size)

/-- Plumbing for the `readReserved` / `readString` / `readNumber` call
sites of `Next`: an error is returned with 0 bytes and the cursor
untouched; on success the helper's count is added to `size` and the cursor
advances by the total. -/
def afterHelper (res : Lexer × Except Err Nat) (size : Nat) : Lexer × Except Err Nat :=
  match res.2 with
  | .error e => (res.1, .error e)
  | .ok s => advanceOk res.1 (size + s)

/-- The dispatch of the newer `Next` once the first rune `r` (of byte size
`size`) has been decoded: `structures` first, then newline, horizontal
whitespace, reserved words, strings, numbers, and the unexpected-rune
error. -/
def nextCore (l : Lexer) (r size : Nat) : Lexer × Except Err Nat :=
  if r = runeError then
    (l, .error { kind := .invalidUTF8, line := l.line, pos := l.pos })
  else if size = 0 then
    advanceOk (appendToken { l with line := l.line + 1, col := 0 } .EOF (TokenType.string .EOF)) 0
  else
    match structuresFind r with
    | some token =>
      advanceOk (appendToken { l with col := l.col + 1 } token (TokenType.string token)) size
    | none =>
      if r = 10 then
        advanceOk (appendToken { l with line := l.line + 1, col := 0 } .NEWLINE (TokenType.string .NEWLINE)) size
      else if r = 32 ∨ r = 9 ∨ r = 13 then
        advanceOk (appendToken { l with col := l.col + (if r = 9 then 4 else 1) } .WHITESPACE (TokenType.string .WHITESPACE)) size
      else if r = 116 ∨ r = 102 ∨ r = 110 then
        afterHelper (readReserved l) size
      else if r = 34 then
        afterHelper (readString l (l.input.length + 1)) size
      else if r = 45 ∨ unicodeIsDigit r = true then
        afterHelper (readNumber l size (l.input.length + 1)) size
      else
        (l, .error { kind := .unexpectedRune, line := l.line, pos := l.col })

/-- The newer `Next`: at or past the end of the buffer, bump the line
counter, reset the column, append an EOF token and report 0 bytes read;
otherwise decode one rune and dispatch. -/
def Next (l : Lexer) : Lexer × Except Err Nat :=
  if l.input.length ≤ l.pos then
    (appendToken { l with line := l.line + 1, col := 0 } .EOF (TokenType.string .EOF), .ok 0)
  else
    nextCore l (decodeRune (l.input.drop l.pos)).1 (decodeRune (l.input.drop l.pos)).2

/-- Iterate `Next`, keeping the lexer state. -/
def iterNext : Nat → Lexer → Lexer
  | 0, l => l
  | n + 1, l => iterNext n (Next l).1

end lexer

namespace lexer0

/-- The older lexer revision's state: input buffer, token log, byte
position `pos`, the `index` cursor into the token log, and the current
line.  (This revision tracks no column.) -/
structure Lexer where
  input : List Nat
  tokens : List Token
  pos : Nat
  index : Nat
  line : Nat

/-- Alias for the shared `Token` structure (see `lexer.Tok`). -/
abbrev Tok : Type := Token

/-- The older `NewLexer`: input installed, `line` starts at 1, remaining
fields at Go's zero value.  (Its `tokenMap` literal is the pure function
`tokenMapFind` below.) -/
def NewLexer (input : List Nat) : Lexer :=
  { input := input, tokens := [], pos := 0, index := 0, line := 1 }

/-- The older `Reset`: rewinds `pos`, `index` and `line` (the token log is
kept — this revision does not clear it). -/
def Reset (l : Lexer) : Lexer :=
  { l with pos := 0, index := 0, line := 1 }

/-- The older `tokenMap`, looked up at `string(r)` for a single rune `r`:
the structural characters, quote, horizontal whitespace and newline.  (The
map also holds the keys `"true"`, `"false"`, `"null"`, but a one-rune
string never equals them, so those entries are unreachable through the
lookups the code performs.) -/
def tokenMapFind (r : Nat) : Option TokenType :=
  if r = 123 then some .LBRACE
  else if r = 125 then some .RBRACE
  else if r = 91 then some .LBRACKET
  else if r = 93 then some .RBRACKET
  else if r = 44 then some .COMMA
  else if r = 58 then some .COLON
  else if r = 34 then some .QUOTE
  else if r = 32 ∨ r = 9 ∨ r = 13 then some .WHITESPACE
  else if r = 10 then some .NEWLINE
  else none

/-- A `tokenMap` lookup without the `ok` flag: zero value `EOF` when the
key is absent. -/
def tokenMapGet (r : Nat) : TokenType :=
  (tokenMapFind r).getD .EOF

/-- The older `Token()`: indexes `l.tokens[l.index]`; `none` models the
out-of-range panic. -/
def Lexer.Token (l : Lexer) : Option Tok := l.tokens.get? l.index

/-- The older `Tokens()`: returns the token log. -/
def Lexer.Tokens (l : Lexer) : List Tok := l.tokens

/-- The older `appendToken`: records the current line in `line` and the
current byte position in the `pos` field (this revision's `Token` literal
names no column, leaving `col` at Go's zero value). -/
def appendToken (l : Lexer) (t : TokenType) (literal : List Nat) : Lexer :=
  { l with tokens := l.tokens ++ [{ typ := t, literal := literal, line := l.line, col := 0, pos := l.pos }] }

/-- The older string-literal loop inside `lexToken`'s QUOTE case: walk a
local position `p` (starting just after the opening quote) rune by rune;
a decode failure — including running off the end of the buffer, where
`DecodeRune` yields `RuneError` — is a fatal invalid-UTF-8, a NUL rune
(`r == EOF`) a fatal unexpected-EOF, a backslash falls through (the escape
TODO), and a closing quote appends the String token (the exact span
between the quotes) and a closing Quote token (literal
`l.input[l.pos:l.pos+s]`, the opening-quote byte) and yields the final
size `size + (p - l.pos)`. -/
def stringLoop (l : Lexer) (size p : Nat) : Nat → Lexer × Except Err Nat
  | 0 => (l, .error { kind := .fuelExhausted, line := l.line, pos := l.pos })
  | fuel + 1 =>
    let r := (decodeRune (l.input.drop p)).1
    let s := (decodeRune (l.input.drop p)).2
    if r = runeError then
      (l, .error { kind := .invalidUTF8, line := l.line, pos := l.pos })
    else if r = 0 then
      (l, .error { kind := .unexpectedEOF, line := l.line, pos := l.pos })
    else if r = 34 then
      let l1 := appendToken l .STRING ((l.input.drop (l.pos + size)).take (p - (l.pos + size)))
      let l2 := appendToken l1 .QUOTE ((l.input.drop l.pos).take s)
      (l2, .ok (size + (p - l.pos)))
    else
      stringLoop l size (p + s) fuel

/-- The older `lexToken` switch: EOF appends an EOF token; NEWLINE bumps
the line *without appending a token*; WHITESPACE bumps `index` without
appending; QUOTE appends the opening Quote token and runs the string
loop; every other (structural) kind appends a token whose literal is
`string(r)`.  Returns the byte size consumed. -/
def lexToken (l : Lexer) (token : TokenType) (r size : Nat) : Lexer × Except Err Nat :=
  if token = .EOF then (appendToken l .EOF [], .ok size)
  else if token = .NEWLINE then ({ l with line := l.line + 1 }, .ok size)
  else if token = .WHITESPACE then ({ l with index := l.index + 1 }, .ok size)
  else if token = .QUOTE then
    stringLoop (appendToken l .QUOTE (runeBytes r)) size (l.pos + size) (l.input.length + 2)
  else (appendToken l token (runeBytes r), .ok size)

/-- The older number loop: scan from `l.pos + size`; a decode failure
(also the end of the buffer) is fatal invalid-UTF-8, a NUL rune fatal
unexpected-EOF; stop when the `tokenMap` lookup is WHITESPACE / NEWLINE /
COMMA (any other structural character such as `}` falls through to the
non-digit fatal); a second `.` or a non-digit rune is a fatal
"Unexpected token" formatting `l.line` and `l.pos` (the start of the
number); otherwise bump `index`, add the rune's size and continue. -/
def numberLoop (l : Lexer) (hasDecimal : Bool) (size : Nat) : Nat → Lexer × Except Err Nat
  | 0 => (l, .error { kind := .fuelExhausted, line := l.line, pos := l.pos })
  | fuel + 1 =>
    let r := (decodeRune (l.input.drop (l.pos + size))).1
    let s := (decodeRune (l.input.drop (l.pos + size))).2
    if r = runeError then
      (l, .error { kind := .invalidUTF8, line := l.line, pos := l.pos })
    else if r = 0 then
      (l, .error { kind := .unexpectedEOF, line := l.line, pos := l.pos })
    else if tokenMapGet r = .WHITESPACE ∨ tokenMapGet r = .NEWLINE ∨ tokenMapGet r = .COMMA then
      (l, .ok size)
    else if r = 46 ∧ hasDecimal = true then
      (l, .error { kind := .unexpectedToken, line := l.line, pos := l.pos })
    else if r ≠ 46 ∧ unicodeIsDigit r = false then
      (l, .error { kind := .unexpectedToken, line := l.line, pos := l.pos })
    else
      numberLoop { l with index := l.index + 1 } (hasDecimal || decide (r = 46)) (size + s) fuel

/-- Dispatch of the older `Next` once the first rune is decoded: the
`tokenMap` lookup first (structural characters, quote, whitespace,
newline via `lexToken`); then the reserved-word branch — whose first
condition slices `l.input[l.pos : l.pos+5]` unconditionally, a runtime
panic when fewer than 5 bytes remain — emitting FALSE/TRUE/NULL and
bumping `index` by 4 or 3 (with *no* branch taken, and one byte silently
consumed, when none of the three keywords match); then the number branch,
appending the NUMBER token with the scanned span as literal; otherwise a
fatal "Unexpected token". -/
def nextCore (l : Lexer) (r size : Nat) : Lexer × Except Err Nat :=
  if r = runeError then
    (l, .error { kind := .invalidUTF8, line := l.line, pos := l.pos })
  else
    match tokenMapFind r with
    | some token =>
      match lexToken l token r size with
      | (l1, .ok size1) => ({ l1 with pos := l1.pos + size1 }, .ok size1)
      | (l1, .error e) => (l1, .error e)
    | none =>
      if r = 116 ∨ r = 102 ∨ r = 110 then
        if l.input.length < l.pos + 5 then
          (l, .error { kind := .sliceOutOfRange, line := l.line, pos := l.pos })
        else if (l.input.drop l.pos).take 5 = falseBytes then
          let l1 := { appendToken l .FALSE falseBytes with index := l.index + 4 }
          ({ l1 with pos := l1.pos + (size + 4) }, .ok (size + 4))
        else if (l.input.drop l.pos).take 4 = trueBytes then
          let l1 := { appendToken l .TRUE trueBytes with index := l.index + 3 }
          ({ l1 with pos := l1.pos + (size + 3) }, .ok (size + 3))
        else if (l.input.drop l.pos).take 4 = nullBytes then
          let l1 := { appendToken l .NULL nullBytes with index := l.index + 3 }
          ({ l1 with pos := l1.pos + (size + 3) }, .ok (size + 3))
        else
          ({ l with pos := l.pos + size }, .ok size)
      else if unicodeIsDigit r = true ∨ r = 45 then
        match numberLoop l false size (l.input.length + 2) with
        | (l1, .ok size1) =>
          let l2 := appendToken l1 .NUMBER ((l1.input.drop l1.pos).take size1)
          ({ l2 with pos := l2.pos + size1 }, .ok size1)
        | (l1, .error e) => (l1, .error e)
      else
        (l, .error { kind := .unexpectedToken, line := l.line, pos := l.pos })

/-- The older `Next`: an empty (nil) input appends EOF and returns 0; a
cursor at or past the end bumps the line, appends EOF and returns 0;
otherwise decode one rune and dispatch. -/
def Next (l : Lexer) : Lexer × Except Err Nat :=
  if l.input = [] then (appendToken l .EOF [], .ok 0)
  else if l.input.length ≤ l.pos then
    (appendToken { l with line := l.line + 1 } .EOF [], .ok 0)
  else
    nextCore l (decodeRune (l.input.drop l.pos)).1 (decodeRune (l.input.drop l.pos)).2

end lexer0

namespace parser

/-- The `element` tree, as the closed variant spec §9 prescribes for the
source's interface: an object holds a keyed child list, an array an
ordered child list, a value one terminal token.  (The source's non-owning
`parent` back-pointers exist only so `value.AddElement` can forward an
add upward; no embedded claim exercises that forwarding, and the pointer
graph itself has no counterpart in a value embedding.) -/
inductive Element where
  | object (m : List (List Nat × Element))
  | array (es : List Element)
  | value (t : Token)

/-- The `Document`: the path index and the top-level elements. -/
structure Document where
  index : List (List Nat × Element)
  elements : List Element

/-- `object.AddElement`: a fatal "already exists" when the key is present
(the Go message carries only the name, no position, hence 0/0), otherwise
the element is stored under the key. -/
def objectAddElement (m : List (List Nat × Element)) (name : List Nat) (e : Element) :
    Except Err (List (List Nat × Element)) :=
  if (m.lookup name).isSome then .error { kind := .duplicateKey, line := 0, pos := 0 }
  else .ok (m ++ [(name, e)])

/-- `array.AddElement`: append, the name is ignored. -/
def arrayAddElement (es : List Element) (e : Element) : List Element :=
  es ++ [e]

/-- `CreateObject`: loop while the last-read token is not RBRACE — reading
`l.Token()` before any token exists is an index-out-of-range panic — and
in the body advance once, treat EOF as fatal (formatting the token's line
and column), and on a String key advance and require a Colon (its absence
a fatal), then advance again.  Parsed keys and values are discarded (the
body's `_ = l.Token().Literal` TODO), and the returned object is freshly
empty. -/
def CreateObject (l : lexer0.Lexer) : Nat → lexer0.Lexer × Except Err (List (List Nat × Element))
  | 0 => (l, .error { kind := .fuelExhausted, line := l.line, pos := l.pos })
  | fuel + 1 =>
    match l.Token with
    | none => (l, .error { kind := .indexOutOfRange, line := l.line, pos := l.pos })
    | some t =>
      if t.typ = .RBRACE then (l, .ok [])
      else
        match lexer0.Next l with
        | (l1, .error e) => (l1, .error e)
        | (l1, .ok _) =>
          match l1.Token with
          | none => (l1, .error { kind := .indexOutOfRange, line := l1.line, pos := l1.pos })
          | some t1 =>
            if t1.typ = .EOF then
              (l1, .error { kind := .unexpectedEOF, line := t1.line, pos := t1.col })
            else if t1.typ = .STRING then
              match lexer0.Next l1 with
              | (l2, .error e) => (l2, .error e)
              | (l2, .ok _) =>
                match l2.Token with
                | none => (l2, .error { kind := .indexOutOfRange, line := l2.line, pos := l2.pos })
                | some t2 =>
                  if t2.typ ≠ .COLON then
                    (l2, .error { kind := .grammarViolation, line := t2.line, pos := t2.col })
                  else
                    match lexer0.Next l2 with
                    | (l3, .error e) => (l3, .error e)
                    | (l3, .ok _) => CreateObject l3 fuel
            else CreateObject l1 fuel

/-- A `Parser` owns its lexer. -/
structure Parser where
  lexer : lexer0.Lexer

/-- `NewParser`: wraps a fresh lexer over the input. -/
def NewParser (input : List Nat) : Parser :=
  { lexer := lexer0.NewLexer input }

/-- The first loop of `Parse`: `for p.lexer.Next() != 0 { log.Printf(...) }`
— drive the lexer to the end of the input (the printing has no effect on
state), stopping when a call reports 0 bytes. -/
def drainLoop (l : lexer0.Lexer) : Nat → lexer0.Lexer × Except Err Unit
  | 0 => (l, .error { kind := .fuelExhausted, line := l.line, pos := l.pos })
  | fuel + 1 =>
    match lexer0.Next l with
    | (l1, .error e) => (l1, .error e)
    | (l1, .ok n) => if n = 0 then (l1, .ok ()) else drainLoop l1 fuel

/-- The second loop of `Parse`: while `Next()` is nonzero, read the last
token, advance again, and dispatch — LBRACE appends `CreateObject`'s
result to the document's elements, LBRACKET does nothing (the TODO), EOF
returns the document, anything else is a fatal
"must be object or array" formatting the token's line and `Pos` field. -/
def parseLoop (l : lexer0.Lexer) (d : Document) : Nat → Except Err Document
  | 0 => .error { kind := .fuelExhausted, line := l.line, pos := l.pos }
  | fuel + 1 =>
    match lexer0.Next l with
    | (_, .error e) => .error e
    | (l1, .ok n) =>
      if n = 0 then .ok d
      else
        match l1.Token with
        | none => .error { kind := .indexOutOfRange, line := l1.line, pos := l1.pos }
        | some t =>
          match lexer0.Next l1 with
          | (_, .error e) => .error e
          | (l2, .ok _) =>
            if t.typ = .LBRACE then
              match CreateObject l2 (l2.input.length + 4) with
              | (l3, .ok ob) =>
                parseLoop l3 { d with elements := d.elements ++ [Element.object ob] } fuel
              | (_, .error e) => .error e
            else if t.typ = .LBRACKET then parseLoop l2 d fuel
            else if t.typ = .EOF then .ok d
            else .error { kind := .grammarViolation, line := t.line, pos := t.pos }

/-- `Parse`: run the draining loop to the end of input, then the dispatch
loop starting from an empty `Document`.  (Because the first loop has
already consumed everything, the second loop's first `Next` reports 0 and
the empty document is returned for any input the lexer accepts.) -/
def Parse (p : Parser) : Except Err Document :=
  match drainLoop p.lexer (p.lexer.input.length + 4) with
  | (_, .error e) => .error e
  | (l, .ok _) => parseLoop l { index := [], elements := [] } (l.input.length + 4)

end parser

/-- The demo input of the repository's entry point, byte for byte:
`{\n\t\t"key": "value",\n\t\t"num": 10000,\n\t\t"num2": 10000.0,\n\t\t"bool": true\n\t}`. -/
def demoBytes : List Nat :=
  [123, 10,
   9, 9, 34, 107, 101, 121, 34, 58, 32, 34, 118, 97, 108, 117, 101, 34, 44, 10,
   9, 9, 34, 110, 117, 109, 34, 58, 32, 49, 48, 48, 48, 48, 44, 10,
   9, 9, 34, 110, 117, 109, 50, 34, 58, 32, 49, 48, 48, 48, 48, 46, 48, 44, 10,
   9, 9, 34, 98, 111, 111, 108, 34, 58, 32, 116, 114, 117, 101, 10,
   9, 125]

/-- The duplicate-key input `{"a":1,"a":2}`; the second `"a"` opens at byte
offset 7, the number `2` sits at byte offset 11. -/
def dupBytes : List Nat := [123, 34, 97, 34, 58, 49, 44, 34, 97, 34, 58, 50, 125]

/-- The double-decimal input `{"a": 1.2.3}`; the second `.` sits at byte
offset 9. -/
def dotBytes : List Nat := [123, 34, 97, 34, 58, 32, 49, 46, 50, 46, 51, 125]

/-- The bare number scan input `1.2.3`; its second `.` sits at byte
offset 3. -/
def bareDotBytes : List Nat := [49, 46, 50, 46, 51]

/- Helper lemmas: none of the newer lexer's scanners moves the byte
cursor; only `Next`'s own `l.pos += size` does. -/

theorem lexer_appendToken_pos (l : lexer.Lexer) (t : TokenType) (lit : List Nat) :
    (lexer.appendToken l t lit).pos = l.pos := rfl

theorem lexer_readReserved_pos (l : lexer.Lexer) : (lexer.readReserved l).1.pos = l.pos := by
  unfold lexer.readReserved
  dsimp only
  repeat' split
  all_goals rfl

theorem lexer_readStringGo_pos (fuel : Nat) :
    ∀ (l : lexer.Lexer) (size : Nat), (lexer.readStringGo l size fuel).1.pos = l.pos := by
  induction fuel with
  | zero => intro l size; rfl
  | succ n ih =>
    intro l size
    unfold lexer.readStringGo
    dsimp only
    repeat' split
    any_goals rfl
    exact ih _ _

theorem lexer_readNumberGo_pos (fuel : Nat) :
    ∀ (l : lexer.Lexer) (hasDecimal : Bool) (size : Nat),
      (lexer.readNumberGo l hasDecimal size fuel).1.pos = l.pos := by
  induction fuel with
  | zero => intro l hasDecimal size; rfl
  | succ n ih =>
    intro l hasDecimal size
    unfold lexer.readNumberGo
    dsimp only
    repeat' split
    any_goals rfl
    exact ih _ _ _

theorem lexer_afterHelper_pos (res : lexer.Lexer × Except Err Nat) (size lp : Nat)
    (h : res.1.pos = lp) : lp ≤ (lexer.afterHelper res size).1.pos := by
  unfold lexer.afterHelper
  split
  · exact Nat.le_of_eq h.symm
  · exact h ▸ Nat.le_add_right _ _

theorem lexer_nextCore_pos (l : lexer.Lexer) (r size : Nat) :
    l.pos ≤ (lexer.nextCore l r size).1.pos := by
  unfold lexer.nextCore
  repeat' split
  any_goals exact Nat.le_refl _
  any_goals exact Nat.le_add_right _ _
  · exact lexer_afterHelper_pos _ _ _ (lexer_readReserved_pos l)
  · exact lexer_afterHelper_pos _ _ _ (lexer_readStringGo_pos _ _ _)
  · exact lexer_afterHelper_pos _ _ _ (lexer_readNumberGo_pos _ _ _ _)

theorem lexer_Next_pos_mono (l : lexer.Lexer) : l.pos ≤ (lexer.Next l).1.pos := by
  unfold lexer.Next
  split
  · exact Nat.le_refl _
  · exact lexer_nextCore_pos _ _ _

/-- C1: the claim says `Parse` on the demo input
`{"key": "value", "num": 10000, "num2": 10000.0, "bool": true}` (with the
entry point's interspersed whitespace) returns, without error, a Document
whose root is an Object with the four keys.  The code disagrees: `Parse`'s
first loop drains the lexer to EOF, so the second loop's first `Next`
reports 0 bytes and `Parse` returns the *empty* Document — no elements, no
index (and `CreateObject`, had it even run, discards every key and returns
an empty object).  This theorem evaluates the code at the failing input. -/
theorem jg_C1_parse_demo_returns_empty_document :
    parser.Parse (parser.NewParser demoBytes) =
      Except.ok { index := [], elements := [] } := rfl

/-- C2: the claim says `Next` on the keyword `null` emits a Null token.
The code disagrees: `readReserved`'s second branch
(`… == "true" || … == "null"`) appends `TRUE` for both keywords, so
lexing `null` yields a token of type `TRUE` with literal `"null"` (the
byte count, 4, and the cursor advance are as the claim says).  This
theorem evaluates the code at the failing input. -/
theorem jg_C2_null_lexes_as_true_token :
    lexer.Next (lexer.NewLexer nullBytes) =
      ({ input := nullBytes,
         tokens := [{ typ := .TRUE, literal := nullBytes, line := 1, col := 0, pos := 0 }],
         line := 1, col := 3, pos := 4 },
       Except.ok 4) := rfl

/-- C3: the claim says `Next` on a string literal emits Quote, String,
Quote.  The code disagrees: `readString` decodes at the *fixed* cursor
position, so the first rune it examines is the opening quote itself, whose
zero-defaulted `structures` lookup is `EOF`; every string — here `"ab"`,
which has a perfectly good closing quote — therefore fails immediately
with an unexpected-EOF error, no token appended, no byte consumed.  This
theorem evaluates the code at the failing input. -/
theorem jg_C3_string_scan_always_fails :
    lexer.Next (lexer.NewLexer [34, 97, 98, 34]) =
      (lexer.NewLexer [34, 97, 98, 34],
       Except.error { kind := .unexpectedEOF, line := 1, pos := 0 }) := rfl

/-- C4: the claim says the number scan emits a Number token whose literal
is the source text, stopping at the first whitespace/newline/comma/
structural terminator.  The code disagrees: `readNumber` never calls
`appendToken`, so on `10,` no token at all is emitted; moreover the
returned size double-counts the first byte (`Next` adds the first rune's
size again), so 3 bytes are reported and the cursor lands *past* the
comma terminator of the 2-byte literal.  This theorem evaluates the code
at the failing input. -/
theorem jg_C4_number_scan_emits_no_token :
    lexer.Next (lexer.NewLexer [49, 48, 44]) =
      ({ input := [49, 48, 44], tokens := [], line := 1, col := 1, pos := 3 },
       Except.ok 3) := rfl

/-- C5 counterexample: the claim says lexing/parsing `{"a": 1.2.3}` fails
with a malformed-number error located at the second `.` (byte offset 9).
In fact the second `Next` call — the opening quote of `"a"` — already
fails, with an unexpected-EOF error at line 1, column 1, which is not the
claimed error. -/
theorem jg_C5_cex_dot_input_fails_in_string :
    (lexer.Next (lexer.Next (lexer.NewLexer dotBytes)).1).2 =
        Except.error { kind := .unexpectedEOF, line := 1, pos := 1 } ∧
      ({ kind := .unexpectedEOF, line := 1, pos := 1 } : Err) ≠
        { kind := .malformedNumber, line := 1, pos := 9 } := by
  exact ⟨rfl, by decide⟩

/-- C5 amended: a number scan that encounters a second `.` fails with the
malformed-number fatal, which formats the current line and the byte
offset of the *start of the number scan* — not of the second `.` — and
the error is returned to the caller; on the full input `{"a": 1.2.3}` the
failure is never reached because the string scan fails first, so it is
observed when the scan starts directly on `1.2.3` (second `.` at offset
3, reported position 0). -/
theorem jg_C5_second_decimal_point_error_at_number_start :
    lexer.Next (lexer.NewLexer bareDotBytes) =
      ({ input := bareDotBytes, tokens := [], line := 1, col := 2, pos := 0 },
       Except.error { kind := .malformedNumber, line := 1, pos := 0 }) := rfl

/-- C6: for every lexer state, `Next` never moves the byte cursor
backwards; and whenever the cursor is at or past the end of the input,
`Next` appends an EndOfInput token (bumping the line counter, as the
source does) and returns 0 consumed bytes with no error and the cursor
unmoved — so it may be called repeatedly past end of input. -/
theorem jg_C6_cursor_monotone_and_eof_idempotent (l : lexer.Lexer) :
    l.pos ≤ (lexer.Next l).1.pos ∧
      (l.input.length ≤ l.pos →
        (lexer.Next l).2 = Except.ok 0 ∧
          (lexer.Next l).1.tokens =
            l.tokens ++ [{ typ := .EOF, literal := TokenType.string .EOF,
                           line := l.line + 1, col := l.pos, pos := 0 }] ∧
          (lexer.Next l).1.pos = l.pos) := by
  refine ⟨lexer_Next_pos_mono l, fun h => ?_⟩
  unfold lexer.Next
  rw [if_pos h]
  exact ⟨rfl, rfl, rfl⟩

/-- Witness for C6 at the concrete state `NewLexer []`, whose cursor (0)
is at the end of its (empty) buffer. -/
theorem jg_C6_witness :
    (lexer.Next (lexer.NewLexer [])).2 = Except.ok 0 ∧
      (lexer.Next (lexer.NewLexer [])).1.pos = 0 := by
  have h := (jg_C6_cursor_monotone_and_eof_idempotent (lexer.NewLexer [])).2 (by decide)
  exact ⟨h.1, h.2.2⟩

/-- C7: `Reset` on a lexer that has consumed any number of tokens yields
*the very state* `NewLexer` builds over the same buffer — the token log is
cleared, the buffer is untouched — hence every subsequent sequence of
`Next` calls behaves identically to a fresh lexer's. -/
theorem jg_C7_reset_equals_fresh_lexer (l : lexer.Lexer) :
    lexer.Reset l = lexer.NewLexer l.input ∧
      (lexer.Reset l).tokens = [] ∧
      (lexer.Reset l).input = l.input ∧
      ∀ n : Nat, lexer.iterNext n (lexer.Reset l) = lexer.iterNext n (lexer.NewLexer l.input) :=
  ⟨rfl, rfl, rfl, fun _ => rfl⟩

/-- C8: the claim says every token carries the 1-based line, a column in
UTF-8 characters on that line (tab = 4), and the byte offset of the token
start.  The code disagrees: `appendToken` writes the *byte offset* into
the `Col` field (`Col: l.pos`) and stores the maintained character column
`l.col` nowhere, leaving the `Pos` field at zero.  On `{\n\n{` the
third-line token does get `line = 3`, but its `col` field is 3 — its byte
offset — while the character column the lexer tracks at that point is 1.
(The literals are the kind names `"LBRACE"` / `"NEWLINE"` that
`appendToken` receives from `TokenType.String()`, spelled out as bytes.)
This theorem evaluates the code at the failing input. -/
theorem jg_C8_token_col_field_is_byte_offset :
    (lexer.iterNext 4 (lexer.NewLexer [123, 10, 10, 123])).tokens =
        [{ typ := .LBRACE, literal := [76, 66, 82, 65, 67, 69],
           line := 1, col := 0, pos := 0 },
         { typ := .NEWLINE, literal := [78, 69, 87, 76, 73, 78, 69],
           line := 2, col := 1, pos := 0 },
         { typ := .NEWLINE, literal := [78, 69, 87, 76, 73, 78, 69],
           line := 3, col := 2, pos := 0 },
         { typ := .LBRACE, literal := [76, 66, 82, 65, 67, 69],
           line := 3, col := 3, pos := 0 }] ∧
      (lexer.iterNext 4 (lexer.NewLexer [123, 10, 10, 123])).col = 1 :=
  ⟨rfl, rfl⟩

/-- C9: the claim says parsing `{"a":1,"a":2}` fails with a duplicate-key
error at the second `"a"`.  The code disagrees: the number scan accepts
only whitespace/newline/comma as a terminator, so the `}` after `2` (the
number starting at byte offset 11) is a fatal "Unexpected token" inside
the lexer's first drain loop — the parse fails, but with the wrong kind at
the wrong place, and `CreateObject` (which never calls `AddElement`)
could not have raised the duplicate-key fatal in any case.  This theorem
evaluates the code at the failing input. -/
theorem jg_C9_duplicate_key_input_dies_in_lexer :
    parser.Parse (parser.NewParser dupBytes) =
      Except.error { kind := .unexpectedToken, line := 1, pos := 11 } := rfl

/-- C10: reading `Token()` requires at least one emitted token: on a
freshly constructed or freshly reset lexer the token log is empty and the
source's `l.tokens[len(l.tokens)-1]` is out of bounds (the total
embedding returns `none`); the total `Token` yields a value exactly when
the log is non-empty, and after an `appendToken` it is that most recently
appended token. -/
theorem jg_C10_token_requires_prior_emission (inp : List Nat) (l : lexer.Lexer)
    (t : TokenType) (lit : List Nat) :
    (lexer.NewLexer inp).Token = none ∧
      (lexer.Reset l).Token = none ∧
      ((l.Token).isSome ↔ l.tokens ≠ []) ∧
      (lexer.appendToken l t lit).Token =
        some { typ := t, literal := lit, line := l.line, col := l.pos, pos := 0 } := by
  refine ⟨rfl, rfl, ?_, ?_⟩
  · exact List.getLast?_isSome
  · exact List.getLast?_concat _


